import Mathlib

/-!
Verification development for the orange-trading advisory dashboard.

The embedding covers:
* the Market Signal Decision Engine, `calculateMarketSignalBrowser`
  (src `calculateMarketSignal.browser.ts`), over exact rational arithmetic;
* the RSI calculator `calculateRSI` (src `services/marketDataStream.ts`);
* the Frost Exposure Tracker state machine and `loadFrostData`
  (src `PredictorDashboard.tsx`, frost-tracking effect and helpers);
* the live-data reconciler `handleSyncLiveData` (src `PredictorDashboard.tsx`),
  modelled as a pure merge on the dashboard parameter set.

JavaScript numbers are modelled by `ℚ`; `Math.round x` is `⌊x + 1/2⌋` and
`Math.floor (a / b)` on integers is `Int.fdiv`.  String insight fields built by
template interpolation are modelled by structured message types carrying the
interpolated numeric data, so that control flow and data dependence of every
insight field is preserved without reproducing JS number-to-string formatting.
-/

namespace OrangeTrading

/-- JS `Math.round`: round half toward positive infinity. -/
def jsRound (q : ℚ) : ℤ := ⌊q + 1 / 2⌋

/-- Rounding to two decimal places, `Math.round(q * 100) / 100`. -/
def round2 (q : ℚ) : ℚ := (jsRound (q * 100) : ℚ) / 100

/-! ## Market rules and constants (calculateMarketSignal.browser.ts) -/

structure FrostRule where
  critical_temp_f : ℚ
  min_duration_hours : ℚ
deriving DecidableEq, Repr

/-- Inventory multiplier bands; the JSON key `"35_45m"` is written `m35_45`. -/
structure InventoryMultipliers where
  under_35m : ℚ
  m35_45 : ℚ
  over_55m : ℚ
deriving DecidableEq, Repr

structure WinRates where
  la_nina_double_hit : ℚ
  volatility_pre_frost : ℚ
  real_frost : ℚ
  hurricane_false_alarm : ℚ
  brazil_drought : ℚ
deriving DecidableEq, Repr

structure MarketRules where
  frost_rule : FrostRule
  inventory_multipliers : InventoryMultipliers
  win_rates : WinRates
deriving DecidableEq, Repr

/-- Embedded market rules (constants/market_rules.json). -/
def MARKET_RULES : MarketRules :=
  { frost_rule := { critical_temp_f := 28, min_duration_hours := 4 }
    inventory_multipliers := { under_35m := 2.0, m35_45 := 1.5, over_55m := 0.7 }
    win_rates :=
      { la_nina_double_hit := 0.79
        volatility_pre_frost := 0.79
        real_frost := 0.76
        hurricane_false_alarm := 0.71
        brazil_drought := 0.69 } }

def LA_NINA_MULTIPLIER : ℚ := 1.4
def HURRICANE_FALSE_ALARM_WIN_RATE : ℚ := 0.71
def BRAZIL_DROUGHT_WIN_RATE : ℚ := 0.69
def BRAZIL_DROUGHT_THRESHOLD : ℚ := -1.5
def BRAZIL_DROUGHT_MONTHS : List ℕ := [8, 9, 10]
def MAX_WIN_PROBABILITY : ℚ := 0.95
def RSI_OVERBOUGHT_THRESHOLD : ℚ := 70
def TEMP_RECOVERY_THRESHOLD : ℚ := 35
def RSI_TAKE_PROFIT_WIN_RATE : ℚ := 0.72

/-! ## Signal evaluator data model -/

structure MarketContextParams where
  isLaNina : Bool
  isHurricaneActive : Bool
  hurricaneCenterFarFromPolk : Bool
  brazilRainfallIndex : ℚ
  currentMonth : ℕ
deriving DecidableEq, Repr

/-- Structured model of the `frostCondition` insight string. -/
inductive FrostConditionMsg where
  | brazilOverride
  | tempRecovered (currentTemp : ℚ)
  | hurricaneOverride
  | realFrost (currentTemp hoursBelow28 : ℚ)
  | preFrost (currentTemp minDurationHours : ℚ)
  | noFrost (currentTemp criticalTemp : ℚ)
deriving DecidableEq, Repr

/-- Structured model of the `inventoryCondition` insight string. -/
inductive InventoryConditionMsg where
  | brazilOverride
  | rsiOverride
  | hurricaneOverride
  | under35 (multiplier : ℚ)
  | band3545 (multiplier : ℚ)
  | over55 (multiplier : ℚ)
  | neutral
deriving DecidableEq, Repr

/-- Structured model of the `laNinaEffect` insight string. -/
inductive LaNinaMsg where
  | active
deriving DecidableEq, Repr

/-- Structured model of the `hurricaneEffect` insight string. -/
inductive HurricaneMsg where
  | falseAlarm
  | warningNearPolk
deriving DecidableEq, Repr

/-- Structured model of the `brazilDroughtEffect` insight string. -/
inductive BrazilMsg where
  | droughtActive (index : ℚ)
  | noDroughtSignal (index : ℚ)
  | outsideWindow (index : ℚ)
deriving DecidableEq, Repr

/-- Structured model of the `rsiEffect` insight string. -/
inductive RsiMsg where
  | takeProfit (rsi : ℚ)
  | overboughtWatch (rsi : ℚ)
  | oversold (rsi : ℚ)
deriving DecidableEq, Repr

structure SignalInsight where
  frostCondition : FrostConditionMsg
  inventoryCondition : InventoryConditionMsg
  multiplierApplied : ℚ
  baseWinRate : ℚ
  laNinaEffect : Option LaNinaMsg
  hurricaneEffect : Option HurricaneMsg
  brazilDroughtEffect : Option BrazilMsg
  rsiEffect : Option RsiMsg
deriving DecidableEq, Repr

structure MarketSignalResultWithInsight where
  winProbability : ℚ
  recommendedAction : String
  isHurricaneFalseAlarm : Bool
  isLaNinaActive : Bool
  isBrazilDrought : Bool
  isRsiOverbought : Bool
  insight : SignalInsight
deriving DecidableEq, Repr

/-- Default market context built when the `marketContext` argument is omitted;
`nowMonth` stands for `new Date().getMonth() + 1`. -/
def defaultMarketContext (nowMonth : ℕ) : MarketContextParams :=
  { isLaNina := false
    isHurricaneActive := false
    hurricaneCenterFarFromPolk := false
    brazilRainfallIndex := 0
    currentMonth := nowMonth }

/-- Baseline frost/inventory evaluation: the part of
`calculateMarketSignalBrowser` after the three overrides have been checked. -/
def baselineSignal (currentTemp hoursBelow28 currentInventory : ℚ)
    (context : MarketContextParams) (rsiValue : ℚ) : MarketSignalResultWithInsight :=
  let frostPair : ℚ × FrostConditionMsg :=
    if currentTemp < MARKET_RULES.frost_rule.critical_temp_f ∧
        hoursBelow28 ≥ MARKET_RULES.frost_rule.min_duration_hours then
      (MARKET_RULES.win_rates.real_frost, .realFrost currentTemp hoursBelow28)
    else if currentTemp < MARKET_RULES.frost_rule.critical_temp_f then
      (MARKET_RULES.win_rates.volatility_pre_frost,
        .preFrost currentTemp MARKET_RULES.frost_rule.min_duration_hours)
    else
      (0.5, .noFrost currentTemp MARKET_RULES.frost_rule.critical_temp_f)
  let invPair : ℚ × InventoryConditionMsg :=
    if currentInventory < 35 then
      (MARKET_RULES.inventory_multipliers.under_35m,
        .under35 MARKET_RULES.inventory_multipliers.under_35m)
    else if currentInventory ≤ 45 then
      (MARKET_RULES.inventory_multipliers.m35_45,
        .band3545 MARKET_RULES.inventory_multipliers.m35_45)
    else if currentInventory > 55 then
      (MARKET_RULES.inventory_multipliers.over_55m,
        .over55 MARKET_RULES.inventory_multipliers.over_55m)
    else
      (1.0, .neutral)
  let winProbability0 := frostPair.1 * invPair.1
  let winProbability1 :=
    if context.isLaNina then winProbability0 * LA_NINA_MULTIPLIER else winProbability0
  let winProbability2 := min winProbability1 MAX_WIN_PROBABILITY
  let recommendedAction : String :=
    if currentInventory < 35 then "Double Position"
    else if currentInventory ≤ 45 ∧ currentTemp < MARKET_RULES.frost_rule.critical_temp_f then
      "Increase Position"
    else if currentInventory > 55 then "Reduce Position"
    else if currentTemp < MARKET_RULES.frost_rule.critical_temp_f ∧
        hoursBelow28 ≥ MARKET_RULES.frost_rule.min_duration_hours then "Hold Position"
    else "Monitor"
  { winProbability := round2 winProbability2
    recommendedAction := recommendedAction
    isHurricaneFalseAlarm := false
    isLaNinaActive := context.isLaNina
    isBrazilDrought := false
    isRsiOverbought := decide (rsiValue > RSI_OVERBOUGHT_THRESHOLD)
    insight :=
      { frostCondition := frostPair.2
        inventoryCondition := invPair.2
        multiplierApplied := invPair.1
        baseWinRate := frostPair.1
        laNinaEffect := if context.isLaNina then some .active else none
        hurricaneEffect :=
          if context.isHurricaneActive ∧ ¬context.hurricaneCenterFarFromPolk then
            some .warningNearPolk
          else none
        brazilDroughtEffect :=
          if context.currentMonth ∈ BRAZIL_DROUGHT_MONTHS ∧
              context.brazilRainfallIndex ≥ BRAZIL_DROUGHT_THRESHOLD then
            some (.noDroughtSignal context.brazilRainfallIndex)
          else if context.currentMonth ∉ BRAZIL_DROUGHT_MONTHS ∧
              context.brazilRainfallIndex < BRAZIL_DROUGHT_THRESHOLD then
            some (.outsideWindow context.brazilRainfallIndex)
          else none
        rsiEffect :=
          if rsiValue > RSI_OVERBOUGHT_THRESHOLD then some (.overboughtWatch rsiValue)
          else if rsiValue < 30 then some (.oversold rsiValue)
          else none } }

/-- The signal evaluator; `nowMonth` models `new Date().getMonth() + 1`, read
only when `marketContext` is omitted (`none`). -/
def calculateMarketSignalBrowser (nowMonth : ℕ)
    (currentTemp hoursBelow28 currentInventory : ℚ)
    (marketContext : Option MarketContextParams) (rsiValue : ℚ) :
    MarketSignalResultWithInsight :=
  let context := marketContext.getD (defaultMarketContext nowMonth)
  if context.currentMonth ∈ BRAZIL_DROUGHT_MONTHS ∧
      context.brazilRainfallIndex < BRAZIL_DROUGHT_THRESHOLD then
    { winProbability := BRAZIL_DROUGHT_WIN_RATE
      recommendedAction := "STRONG LONG (Brazil Drought)"
      isHurricaneFalseAlarm := false
      isLaNinaActive := context.isLaNina
      isBrazilDrought := true
      isRsiOverbought := false
      insight :=
        { frostCondition := .brazilOverride
          inventoryCondition := .brazilOverride
          multiplierApplied := 1.0
          baseWinRate := BRAZIL_DROUGHT_WIN_RATE
          laNinaEffect := none
          hurricaneEffect := none
          brazilDroughtEffect := some (.droughtActive context.brazilRainfallIndex)
          rsiEffect := none } }
  else if rsiValue > RSI_OVERBOUGHT_THRESHOLD ∧ currentTemp > TEMP_RECOVERY_THRESHOLD then
    { winProbability := RSI_TAKE_PROFIT_WIN_RATE
      recommendedAction := "TAKE PROFIT / SELL"
      isHurricaneFalseAlarm := false
      isLaNinaActive := context.isLaNina
      isBrazilDrought := false
      isRsiOverbought := true
      insight :=
        { frostCondition := .tempRecovered currentTemp
          inventoryCondition := .rsiOverride
          multiplierApplied := 1.0
          baseWinRate := RSI_TAKE_PROFIT_WIN_RATE
          laNinaEffect := none
          hurricaneEffect := none
          brazilDroughtEffect := none
          rsiEffect := some (.takeProfit rsiValue) } }
  else if context.isHurricaneActive ∧ context.hurricaneCenterFarFromPolk then
    { winProbability := HURRICANE_FALSE_ALARM_WIN_RATE
      recommendedAction := "SELL/SHORT (False Alarm)"
      isHurricaneFalseAlarm := true
      isLaNinaActive := context.isLaNina
      isBrazilDrought := false
      isRsiOverbought := false
      insight :=
        { frostCondition := .hurricaneOverride
          inventoryCondition := .hurricaneOverride
          multiplierApplied := 1.0
          baseWinRate := HURRICANE_FALSE_ALARM_WIN_RATE
          laNinaEffect := none
          hurricaneEffect := some .falseAlarm
          brazilDroughtEffect := none
          rsiEffect := none } }
  else
    baselineSignal currentTemp hoursBelow28 currentInventory context rsiValue

/-! ## Specification-side definitions (refinement targets for the baseline) -/

/-- Specification wording of the baseline base rate (spec section 4.3 step 4). -/
def specBaseRate (currentTemp hoursBelow28 : ℚ) : ℚ :=
  if currentTemp < 28 ∧ hoursBelow28 ≥ 4 then 0.76
  else if currentTemp < 28 then 0.79
  else 0.5

/-- Specification wording of the inventory multiplier bands. -/
def specInventoryMultiplier (currentInventory : ℚ) : ℚ :=
  if currentInventory < 35 then 2.0
  else if 35 ≤ currentInventory ∧ currentInventory ≤ 45 then 1.5
  else if currentInventory > 55 then 0.7
  else 1.0

/-- Specification wording of the capped, rounded baseline win probability. -/
def specBaselineWinProbability (currentTemp hoursBelow28 currentInventory : ℚ)
    (isLaNina : Bool) : ℚ :=
  round2 (min (specBaseRate currentTemp hoursBelow28 *
    specInventoryMultiplier currentInventory * (if isLaNina then 1.4 else 1)) 0.95)

/-- Specification wording of the baseline recommended action (first match wins). -/
def specBaselineAction (currentTemp hoursBelow28 currentInventory : ℚ) : String :=
  if currentInventory < 35 then "Double Position"
  else if currentInventory ≤ 45 ∧ currentTemp < 28 then "Increase Position"
  else if currentInventory > 55 then "Reduce Position"
  else if currentTemp < 28 ∧ hoursBelow28 ≥ 4 then "Hold Position"
  else "Monitor"

/-! ## RSI calculator (services/marketDataStream.ts) -/

/-- Day-over-day deltas, `changes[i] = prices[i+1] - prices[i]`. -/
def priceChanges (closingPrices : List ℚ) : List ℚ :=
  List.zipWith (fun next prev => next - prev) closingPrices.tail closingPrices

/-- One round of Wilder smoothing for the (gain, loss) averages. -/
def wilderStep (period : ℕ) (avg : ℚ × ℚ) (gl : ℚ × ℚ) : ℚ × ℚ :=
  ((avg.1 * ((period : ℚ) - 1) + gl.1) / (period : ℚ),
   (avg.2 * ((period : ℚ) - 1) + gl.2) / (period : ℚ))

/-- Positive deltas kept, losses zeroed (`changes.map(c => c > 0 ? c : 0)`). -/
def rsiGains (changes : List ℚ) : List ℚ :=
  changes.map (fun c => if c > 0 then c else 0)

/-- Magnitudes of the negative deltas (`changes.map(c => c < 0 ? |c| : 0)`). -/
def rsiLosses (changes : List ℚ) : List ℚ :=
  changes.map (fun c => if c < 0 then |c| else 0)

/-- Seeded simple averages followed by Wilder smoothing over the remaining
deltas: the final (avgGain, avgLoss) pair of `calculateRSI`. -/
def rsiAverages (closingPrices : List ℚ) (period : ℕ) : ℚ × ℚ :=
  let gains := rsiGains (priceChanges closingPrices)
  let losses := rsiLosses (priceChanges closingPrices)
  ((gains.drop period).zip (losses.drop period)).foldl (wilderStep period)
    ((gains.take period).sum / (period : ℚ), (losses.take period).sum / (period : ℚ))

/-- Body of `calculateRSI` after the length guard has passed. -/
def rsiCore (closingPrices : List ℚ) (period : ℕ) : ℤ :=
  if (rsiAverages closingPrices period).2 = 0 then 100
  else
    jsRound (100 - 100 / (1 +
      (rsiAverages closingPrices period).1 / (rsiAverages closingPrices period).2))

/-- RSI calculation; throws (returns `Except.error`) on insufficient data. -/
def calculateRSI (closingPrices : List ℚ) (period : ℕ) : Except String ℤ :=
  if closingPrices.length < period + 1 then
    Except.error ("Need at least " ++ toString (period + 1) ++ " data points for RSI calculation")
  else
    Except.ok (rsiCore closingPrices period)

/-! ## Frost Exposure Tracker (PredictorDashboard.tsx) -/

def CRITICAL_FROST_HOURS : ℚ := 4
def CRITICAL_TEMP_THRESHOLD : ℚ := 28
def RESET_TEMP_THRESHOLD : ℚ := 32

structure FrostTrackerData where
  accumulatedSeconds : ℤ
  lastUpdateTime : ℤ
  isTracking : Bool
deriving DecidableEq, Repr

/-- Model of `loadFrostData`; `now` is `Date.now()` in milliseconds.  The JS
truthiness test `data.isTracking && data.lastUpdateTime` is modelled as
`isTracking = true ∧ lastUpdateTime ≠ 0`, and
`Math.floor((now - last) / 1000)` as flooring integer division. -/
def loadFrostData (stored : Option FrostTrackerData) (now : ℤ) : FrostTrackerData :=
  match stored with
  | some data =>
      if data.isTracking = true ∧ data.lastUpdateTime ≠ 0 then
        { data with
            accumulatedSeconds :=
              data.accumulatedSeconds + (now - data.lastUpdateTime).fdiv 1000
            lastUpdateTime := now }
      else data
  | none => { accumulatedSeconds := 0, lastUpdateTime := now, isTracking := false }

/-- Dashboard-side tracker state: the persisted triple plus the one-shot
`damageAlertShownRef` flag. -/
structure TrackerState where
  frost : FrostTrackerData
  damageAlertShown : Bool
deriving DecidableEq, Repr

/-- Initial tracker state of the dashboard (`useState(loadFrostData())` with an
empty store, and `damageAlertShownRef.current = false`). -/
def initialTracker (now : ℤ) : TrackerState :=
  { frost := loadFrostData none now, damageAlertShown := false }

/-- Start/reset reconciliation at the head of the frost-tracking effect. -/
def frostEffect (s : TrackerState) (currentTemp : ℚ) (now : ℤ) : TrackerState :=
  if currentTemp ≤ CRITICAL_TEMP_THRESHOLD ∧ s.frost.isTracking = false then
    { s with frost := { s.frost with isTracking := true, lastUpdateTime := now } }
  else if currentTemp > RESET_TEMP_THRESHOLD ∧ s.frost.isTracking = true then
    { frost := { accumulatedSeconds := 0, isTracking := false, lastUpdateTime := now }
      damageAlertShown := false }
  else s

/-- One interval tick: accumulate one second and raise the one-shot critical
exposure alert at the four-hour mark.  The returned `Bool` records whether the
alert was raised by this tick (`setShowDamageAlert(true)`). -/
def frostTick (s : TrackerState) (now : ℤ) : TrackerState × Bool :=
  let acc := s.frost.accumulatedSeconds + 1
  if (acc : ℚ) / 3600 ≥ CRITICAL_FROST_HOURS ∧ s.damageAlertShown = false then
    ({ frost := { accumulatedSeconds := acc, lastUpdateTime := now, isTracking := s.frost.isTracking }
       damageAlertShown := true }, true)
  else
    ({ frost := { accumulatedSeconds := acc, lastUpdateTime := now, isTracking := s.frost.isTracking }
       damageAlertShown := s.damageAlertShown }, false)

/-- One second of machine time at a fixed temperature: the effect start/reset
reconciliation followed by an interval tick when the interval is active
(tracking and at-or-below the critical temperature). -/
def frostMachineStep (s : TrackerState) (currentTemp : ℚ) (now : ℤ) : TrackerState × Bool :=
  let s2 := frostEffect s currentTemp now
  if s2.frost.isTracking = true ∧ currentTemp ≤ CRITICAL_TEMP_THRESHOLD then frostTick s2 now
  else (s2, false)

/-- Manual reset of the frost tracker (`handleResetFrostTracker`). -/
def handleResetFrostTracker (now : ℤ) : TrackerState :=
  { frost := { accumulatedSeconds := 0, isTracking := false, lastUpdateTime := now }
    damageAlertShown := false }

/-- Fold of machine steps from an arbitrary (state, alert count) pair. -/
def frostRunFrom (p : TrackerState × ℕ) (temps : List ℚ) (now : ℤ) : TrackerState × ℕ :=
  temps.foldl (fun acc t =>
    let r := frostMachineStep acc.1 t now
    (r.1, acc.2 + if r.2 then 1 else 0)) p

/-- Run the machine over a list of temperatures, one second each, counting how
many times the critical-exposure alert is raised. -/
def frostRun (s : TrackerState) (temps : List ℚ) (now : ℤ) : TrackerState × ℕ :=
  frostRunFrom (s, 0) temps now

/-! ## Live-data reconciler (PredictorDashboard.tsx, handleSyncLiveData) -/

/-- Manually-held parameter set of the dashboard that feeds the evaluator. -/
structure ParamSet where
  currentTemp : ℚ
  hoursBelow28 : ℚ
  currentInventory : ℚ
  marketContext : MarketContextParams
  rsiValue : ℚ
  isRsiAutoSynced : Bool
  rsiSyncError : Option String
deriving DecidableEq, Repr

/-- Result of the live RSI fetch (`RSIResult`): value plus optional error. -/
structure RSIFetchResult where
  value : ℚ
  error : Option String
deriving DecidableEq, Repr

/-- Model of `handleSyncLiveData`: merge a fetched temperature and RSI result
into the current parameter set.  Only the temperature (and on success the RSI
value) are overwritten; inventory, frost hours and the market-context toggles
are kept from the current state. -/
def handleSyncLiveData (params : ParamSet) (fetchedTemp : ℚ)
    (rsiResult : RSIFetchResult) : ParamSet :=
  let p1 := { params with currentTemp := fetchedTemp }
  match rsiResult.error with
  | none =>
      { p1 with rsiValue := rsiResult.value, isRsiAutoSynced := true, rsiSyncError := none }
  | some e =>
      { p1 with rsiSyncError := some e, isRsiAutoSynced := false }

/-- Neutral all-false market context used by the concrete test vectors. -/
def neutralContext : MarketContextParams :=
  { isLaNina := false
    isHurricaneActive := false
    hurricaneCenterFarFromPolk := false
    brazilRainfallIndex := 0
    currentMonth := 1 }

/-- September drought context with every other signal also active, used to
exercise the override priority on a concrete input. -/
def droughtStressContext : MarketContextParams :=
  { isLaNina := true
    isHurricaneActive := true
    hurricaneCenterFarFromPolk := true
    brazilRainfallIndex := -2
    currentMonth := 9 }

/-! ## Helper lemmas -/

lemma jsRound_range (q : ℚ) (h0 : 0 ≤ q) (h1 : q < 100) :
    0 ≤ jsRound q ∧ jsRound q ≤ 100 := by
  constructor
  · exact Int.le_floor.mpr (by push_cast; linarith)
  · have : jsRound q < 101 := Int.floor_lt.mpr (by push_cast; linarith)
    omega

lemma round2_bounds (q : ℚ) (h0 : 0 ≤ q) (h1 : q ≤ 0.95) :
    0 ≤ round2 q ∧ round2 q ≤ 0.95 := by
  have hlo : (0 : ℤ) ≤ jsRound (q * 100) := Int.le_floor.mpr (by push_cast; linarith)
  have hhi : jsRound (q * 100) < 96 := Int.floor_lt.mpr (by push_cast; linarith)
  have hlo' : (0 : ℚ) ≤ (jsRound (q * 100) : ℚ) := by exact_mod_cast hlo
  have hhi' : ((jsRound (q * 100) : ℚ)) ≤ 95 := by exact_mod_cast Int.lt_add_one_iff.mp hhi
  unfold round2
  constructor <;> [positivity; skip]
  rw [div_le_iff₀ (by norm_num : (0:ℚ) < 100)]
  linarith

lemma calc_eq_baseline (nowMonth : ℕ) (currentTemp hoursBelow28 currentInventory : ℚ)
    (context : MarketContextParams) (rsiValue : ℚ)
    (hnd : ¬(context.currentMonth ∈ BRAZIL_DROUGHT_MONTHS ∧
      context.brazilRainfallIndex < BRAZIL_DROUGHT_THRESHOLD))
    (hnr : ¬(rsiValue > RSI_OVERBOUGHT_THRESHOLD ∧ currentTemp > TEMP_RECOVERY_THRESHOLD))
    (hnh : ¬(context.isHurricaneActive = true ∧ context.hurricaneCenterFarFromPolk = true)) :
    calculateMarketSignalBrowser nowMonth currentTemp hoursBelow28 currentInventory
      (some context) rsiValue =
      baselineSignal currentTemp hoursBelow28 currentInventory context rsiValue := by
  simp only [calculateMarketSignalBrowser, Option.getD_some]
  split_ifs
  rfl

lemma baseline_winProb_eq (t h i : ℚ) (c : MarketContextParams) (r : ℚ) :
    (baselineSignal t h i c r).winProbability =
      specBaselineWinProbability t h i c.isLaNina := by
  simp only [baselineSignal, specBaselineWinProbability, specBaseRate, specInventoryMultiplier,
    MARKET_RULES, MAX_WIN_PROBABILITY, LA_NINA_MULTIPLIER]
  split_ifs <;> first
    | (norm_num; done)
    | (exfalso; simp only [not_and_or, not_lt, not_le, ge_iff_le] at *;
       casesm* _ ∨ _, _ ∧ _ <;> linarith)

lemma baseline_action_eq (t h i : ℚ) (c : MarketContextParams) (r : ℚ) :
    (baselineSignal t h i c r).recommendedAction = specBaselineAction t h i := by
  simp only [baselineSignal, specBaselineAction, MARKET_RULES]

lemma baseline_winProb_bounds (t h i : ℚ) (c : MarketContextParams) (r : ℚ) :
    0 ≤ (baselineSignal t h i c r).winProbability ∧
      (baselineSignal t h i c r).winProbability ≤ 0.95 := by
  rw [baseline_winProb_eq]
  unfold specBaselineWinProbability
  apply round2_bounds
  · apply le_min _ (by norm_num)
    have h1 : 0 ≤ specBaseRate t h := by unfold specBaseRate; split_ifs <;> norm_num
    have h2 : 0 ≤ specInventoryMultiplier i := by
      unfold specInventoryMultiplier; split_ifs <;> norm_num
    have h3 : (0:ℚ) ≤ (if c.isLaNina then 1.4 else 1) := by split_ifs <;> norm_num
    positivity
  · exact min_le_right _ _

lemma calc_bounds_aux (nowMonth : ℕ) (t h i : ℚ) (c : MarketContextParams) (r : ℚ) :
    0 ≤ (calculateMarketSignalBrowser nowMonth t h i (some c) r).winProbability ∧
      (calculateMarketSignalBrowser nowMonth t h i (some c) r).winProbability ≤ 0.95 := by
  simp only [calculateMarketSignalBrowser, Option.getD_some]
  split_ifs
  · exact ⟨by norm_num [BRAZIL_DROUGHT_WIN_RATE], by norm_num [BRAZIL_DROUGHT_WIN_RATE]⟩
  · exact ⟨by norm_num [RSI_TAKE_PROFIT_WIN_RATE], by norm_num [RSI_TAKE_PROFIT_WIN_RATE]⟩
  · exact ⟨by norm_num [HURRICANE_FALSE_ALARM_WIN_RATE],
      by norm_num [HURRICANE_FALSE_ALARM_WIN_RATE]⟩
  · exact baseline_winProb_bounds t h i c r

lemma wilderStep_nonneg (p : ℕ) (avg gl : ℚ × ℚ) (h1 : 0 ≤ avg.1) (h2 : 0 ≤ avg.2)
    (g1 : 0 ≤ gl.1) (g2 : 0 ≤ gl.2) :
    0 ≤ (wilderStep p avg gl).1 ∧ 0 ≤ (wilderStep p avg gl).2 := by
  rcases Nat.eq_zero_or_pos p with hp | hp
  · subst hp
    simp [wilderStep]
  · have hp1 : (1 : ℚ) ≤ (p : ℚ) := by exact_mod_cast hp
    constructor <;> apply div_nonneg _ (by linarith)
    · have := mul_nonneg h1 (by linarith : (0 : ℚ) ≤ (p : ℚ) - 1)
      linarith
    · have := mul_nonneg h2 (by linarith : (0 : ℚ) ≤ (p : ℚ) - 1)
      linarith

lemma wilder_fold_nonneg (p : ℕ) (l : List (ℚ × ℚ)) :
    ∀ init : ℚ × ℚ, 0 ≤ init.1 → 0 ≤ init.2 → (∀ x ∈ l, 0 ≤ x.1 ∧ 0 ≤ x.2) →
      0 ≤ (l.foldl (wilderStep p) init).1 ∧ 0 ≤ (l.foldl (wilderStep p) init).2 := by
  induction l with
  | nil => exact fun init h1 h2 _ => ⟨h1, h2⟩
  | cons a l ih =>
      intro init h1 h2 hl
      have ha := hl a (List.mem_cons_self a l)
      have hstep := wilderStep_nonneg p init a h1 h2 ha.1 ha.2
      exact ih (wilderStep p init a) hstep.1 hstep.2
        (fun x hx => hl x (List.mem_cons_of_mem a hx))

lemma wilder_fold_fst_zero (p : ℕ) (l : List (ℚ × ℚ)) :
    ∀ init : ℚ × ℚ, init.1 = 0 → (∀ x ∈ l, x.1 = 0) →
      (l.foldl (wilderStep p) init).1 = 0 := by
  induction l with
  | nil => exact fun init h _ => h
  | cons a l ih =>
      intro init h1 hl
      apply ih
      · show (wilderStep p init a).1 = 0
        simp [wilderStep, h1, hl a (List.mem_cons_self a l)]
      · exact fun x hx => hl x (List.mem_cons_of_mem a hx)

lemma wilder_fold_snd_zero (p : ℕ) (l : List (ℚ × ℚ)) :
    ∀ init : ℚ × ℚ, init.2 = 0 → (∀ x ∈ l, x.2 = 0) →
      (l.foldl (wilderStep p) init).2 = 0 := by
  induction l with
  | nil => exact fun init h _ => h
  | cons a l ih =>
      intro init h2 hl
      apply ih
      · show (wilderStep p init a).2 = 0
        simp [wilderStep, h2, hl a (List.mem_cons_self a l)]
      · exact fun x hx => hl x (List.mem_cons_of_mem a hx)

lemma wilder_fold_snd_pos (p : ℕ) (hp : 1 ≤ p) (l : List (ℚ × ℚ)) :
    ∀ init : ℚ × ℚ, 0 < init.2 → (∀ x ∈ l, 0 < x.2) →
      0 < (l.foldl (wilderStep p) init).2 := by
  induction l with
  | nil => exact fun init h _ => h
  | cons a l ih =>
      intro init h2 hl
      apply ih
      · show 0 < (wilderStep p init a).2
        have hp1 : (1 : ℚ) ≤ (p : ℚ) := by exact_mod_cast hp
        have ha := hl a (List.mem_cons_self a l)
        have hmul := mul_nonneg (le_of_lt h2) (by linarith : (0 : ℚ) ≤ (p : ℚ) - 1)
        apply div_pos _ (by linarith)
        linarith
      · exact fun x hx => hl x (List.mem_cons_of_mem a hx)

lemma rsiGains_nonneg (changes : List ℚ) : ∀ x ∈ rsiGains changes, 0 ≤ x := by
  intro x hx
  obtain ⟨c, _, rfl⟩ := List.mem_map.mp hx
  split_ifs with h
  · linarith
  · exact le_refl 0

lemma rsiLosses_nonneg (changes : List ℚ) : ∀ x ∈ rsiLosses changes, 0 ≤ x := by
  intro x hx
  obtain ⟨c, _, rfl⟩ := List.mem_map.mp hx
  split_ifs with h
  · exact abs_nonneg c
  · exact le_refl 0

lemma priceChanges_length (l : List ℚ) : (priceChanges l).length = l.length - 1 := by
  simp [priceChanges]

lemma rsiAverages_nonneg (l : List ℚ) (p : ℕ) :
    0 ≤ (rsiAverages l p).1 ∧ 0 ≤ (rsiAverages l p).2 := by
  apply wilder_fold_nonneg
  · exact div_nonneg (List.sum_nonneg
      (fun x hx => rsiGains_nonneg _ x (List.take_subset _ _ hx))) (by positivity)
  · exact div_nonneg (List.sum_nonneg
      (fun x hx => rsiLosses_nonneg _ x (List.take_subset _ _ hx))) (by positivity)
  · intro x hx
    exact ⟨rsiGains_nonneg _ _ (List.drop_subset _ _ (List.of_mem_zip hx).1),
      rsiLosses_nonneg _ _ (List.drop_subset _ _ (List.of_mem_zip hx).2)⟩

lemma rsiAverages_all_losses (l : List ℚ) (p : ℕ) (hp : 1 ≤ p) (hlen : p + 1 ≤ l.length)
    (hneg : ∀ c ∈ priceChanges l, c < 0) :
    (rsiAverages l p).1 = 0 ∧ 0 < (rsiAverages l p).2 := by
  have hg0 : ∀ x ∈ rsiGains (priceChanges l), x = 0 := by
    intro x hx
    obtain ⟨c, hc, rfl⟩ := List.mem_map.mp hx
    rw [if_neg (not_lt.mpr (le_of_lt (hneg c hc)))]
  have hlpos : ∀ x ∈ rsiLosses (priceChanges l), 0 < x := by
    intro x hx
    obtain ⟨c, hc, rfl⟩ := List.mem_map.mp hx
    rw [if_pos (hneg c hc)]
    exact abs_pos.mpr (ne_of_lt (hneg c hc))
  have hplen : p ≤ (rsiLosses (priceChanges l)).length := by
    simp only [rsiLosses, List.length_map, priceChanges_length]
    omega
  constructor
  · apply wilder_fold_fst_zero
    · show ((rsiGains (priceChanges l)).take p).sum / (p : ℚ) = 0
      rw [List.sum_eq_zero (fun x hx => hg0 x (List.take_subset _ _ hx)), zero_div]
    · intro x hx
      exact hg0 _ (List.drop_subset _ _ (List.of_mem_zip hx).1)
  · apply wilder_fold_snd_pos p hp
    · show 0 < ((rsiLosses (priceChanges l)).take p).sum / (p : ℚ)
      have hp0 : (0 : ℚ) < (p : ℚ) := by exact_mod_cast Nat.lt_of_lt_of_le Nat.zero_lt_one hp
      apply div_pos _ hp0
      apply List.sum_pos
      · exact fun x hx => hlpos x (List.take_subset _ _ hx)
      · intro hnil
        have hlen0 := congrArg List.length hnil
        rw [List.length_take] at hlen0
        have hplen : p ≤ (rsiLosses (priceChanges l)).length := by
          simp only [rsiLosses, List.length_map, priceChanges_length]
          omega
        simp only [List.length_nil, Nat.min_eq_zero_iff] at hlen0
        omega
    · intro x hx
      exact hlpos _ (List.drop_subset _ _ (List.of_mem_zip hx).2)

lemma rsiAverages_all_gains (l : List ℚ) (p : ℕ)
    (hpos : ∀ c ∈ priceChanges l, 0 < c) :
    (rsiAverages l p).2 = 0 := by
  have hl0 : ∀ x ∈ rsiLosses (priceChanges l), x = 0 := by
    intro x hx
    obtain ⟨c, hc, rfl⟩ := List.mem_map.mp hx
    rw [if_neg (not_lt.mpr (le_of_lt (hpos c hc)))]
  apply wilder_fold_snd_zero
  · show ((rsiLosses (priceChanges l)).take p).sum / (p : ℚ) = 0
    rw [List.sum_eq_zero (fun x hx => hl0 x (List.take_subset _ _ hx)), zero_div]
  · intro x hx
    exact hl0 _ (List.drop_subset _ _ (List.of_mem_zip hx).2)

lemma rsiCore_range (l : List ℚ) (p : ℕ) : 0 ≤ rsiCore l p ∧ rsiCore l p ≤ 100 := by
  unfold rsiCore
  obtain ⟨hA, hB⟩ := rsiAverages_nonneg l p
  split_ifs with h0
  · norm_num
  · have hBpos : 0 < (rsiAverages l p).2 := lt_of_le_of_ne hB (Ne.symm h0)
    have hrs : 0 ≤ (rsiAverages l p).1 / (rsiAverages l p).2 := div_nonneg hA hB
    have h1 : (0 : ℚ) < 1 + (rsiAverages l p).1 / (rsiAverages l p).2 := by linarith
    have h2 : 100 / (1 + (rsiAverages l p).1 / (rsiAverages l p).2) ≤ 100 := by
      rw [div_le_iff₀ h1]
      nlinarith
    have h3 : 0 < 100 / (1 + (rsiAverages l p).1 / (rsiAverages l p).2) := by positivity
    exact jsRound_range _ (by linarith) (by linarith)

lemma frostThreshold_iff (acc : ℤ) :
    (CRITICAL_FROST_HOURS ≤ ((acc : ℚ) + 1) / 3600) ↔ 14400 ≤ acc + 1 := by
  rw [CRITICAL_FROST_HOURS, le_div_iff₀ (by norm_num : (0:ℚ) < 3600)]
  norm_num
  exact_mod_cast Iff.rfl

lemma frostMachineStep_cold (s : TrackerState) (t : ℚ) (now : ℤ)
    (ht : t ≤ CRITICAL_TEMP_THRESHOLD) :
    (frostMachineStep s t now).1.frost.accumulatedSeconds =
      s.frost.accumulatedSeconds + 1 ∧
    (frostMachineStep s t now).1.frost.isTracking = true ∧
    (frostMachineStep s t now).1.frost.lastUpdateTime = now ∧
    ((frostMachineStep s t now).1.damageAlertShown = true ↔
      (s.damageAlertShown = true ∨ 14400 ≤ s.frost.accumulatedSeconds + 1)) ∧
    ((frostMachineStep s t now).2 = true ↔
      (s.damageAlertShown = false ∧ 14400 ≤ s.frost.accumulatedSeconds + 1)) := by
  have h32 : ¬(t > RESET_TEMP_THRESHOLD) := by
    rw [CRITICAL_TEMP_THRESHOLD] at ht
    rw [RESET_TEMP_THRESHOLD]
    intro hgt
    linarith
  by_cases hc : (14400 : ℤ) ≤ s.frost.accumulatedSeconds + 1 <;>
    rcases hb : s.frost.isTracking with _ | _ <;>
    rcases hs : s.damageAlertShown with _ | _ <;>
    simp [frostMachineStep, frostEffect, frostTick, hb, hs, hc, ht, h32, frostThreshold_iff]

lemma frostRunFrom_cold_state (now : ℤ) (temps : List ℚ) :
    ∀ (s : TrackerState) (c0 : ℕ), (∀ x ∈ temps, x ≤ CRITICAL_TEMP_THRESHOLD) →
      (frostRunFrom (s, c0) temps now).1.frost.accumulatedSeconds =
        s.frost.accumulatedSeconds + temps.length ∧
      ((frostRunFrom (s, c0) temps now).1.frost.isTracking = true ↔
        (1 ≤ temps.length ∨ s.frost.isTracking = true)) := by
  induction temps with
  | nil =>
      intro s c0 _
      simp [frostRunFrom]
  | cons a tl ih =>
      intro s c0 hall
      have ha : a ≤ CRITICAL_TEMP_THRESHOLD := hall a (List.mem_cons_self a tl)
      obtain ⟨hacc, htrk, hlast, hshown, hfired⟩ := frostMachineStep_cold s a now ha
      have ihs := ih (frostMachineStep s a now).1
        (c0 + if (frostMachineStep s a now).2 then 1 else 0)
        (fun x hx => hall x (List.mem_cons_of_mem a hx))
      have hfold : frostRunFrom (s, c0) (a :: tl) now =
          frostRunFrom ((frostMachineStep s a now).1,
            c0 + if (frostMachineStep s a now).2 then 1 else 0) tl now := rfl
      rw [hfold]
      constructor
      · rw [ihs.1, hacc]
        simp only [List.length_cons]
        push_cast
        ring
      · rw [ihs.2, htrk]
        simp

lemma frostRunFrom_cold_shown (now : ℤ) (temps : List ℚ) :
    ∀ (s : TrackerState) (c0 : ℕ), (∀ x ∈ temps, x ≤ CRITICAL_TEMP_THRESHOLD) →
      ((frostRunFrom (s, c0) temps now).1.damageAlertShown = true ↔
        (s.damageAlertShown = true ∨
          (1 ≤ temps.length ∧
            14400 ≤ s.frost.accumulatedSeconds + (temps.length : ℤ)))) := by
  induction temps with
  | nil =>
      intro s c0 _
      simp [frostRunFrom]
  | cons a tl ih =>
      intro s c0 hall
      have ha : a ≤ CRITICAL_TEMP_THRESHOLD := hall a (List.mem_cons_self a tl)
      obtain ⟨hacc, htrk, hlast, hshown, hfired⟩ := frostMachineStep_cold s a now ha
      have ihs := ih (frostMachineStep s a now).1
        (c0 + if (frostMachineStep s a now).2 then 1 else 0)
        (fun x hx => hall x (List.mem_cons_of_mem a hx))
      have hfold : frostRunFrom (s, c0) (a :: tl) now =
          frostRunFrom ((frostMachineStep s a now).1,
            c0 + if (frostMachineStep s a now).2 then 1 else 0) tl now := rfl
      rw [hfold, ihs, hshown, hacc]
      rcases hs : s.damageAlertShown with _ | _
      · simp only [Bool.false_eq_true, false_or, List.length_cons]
        push_cast
        constructor
        · rintro (h | ⟨h1, h2⟩) <;> exact ⟨by simp, by omega⟩
        · rintro ⟨-, h⟩
          rcases Nat.eq_zero_or_pos tl.length with h0 | h0
          · exact Or.inl (by omega)
          · exact Or.inr ⟨h0, by omega⟩
      · simp

lemma frostRunFrom_cold_count (now : ℤ) (temps : List ℚ) :
    ∀ (s : TrackerState) (c0 : ℕ), (∀ x ∈ temps, x ≤ CRITICAL_TEMP_THRESHOLD) →
      (frostRunFrom (s, c0) temps now).2 =
        c0 + (if s.damageAlertShown = false ∧ 1 ≤ temps.length ∧
            14400 ≤ s.frost.accumulatedSeconds + (temps.length : ℤ) then 1 else 0) := by
  induction temps with
  | nil =>
      intro s c0 _
      simp [frostRunFrom]
  | cons a tl ih =>
      intro s c0 hall
      have ha : a ≤ CRITICAL_TEMP_THRESHOLD := hall a (List.mem_cons_self a tl)
      obtain ⟨hacc, htrk, hlast, hshown, hfired⟩ := frostMachineStep_cold s a now ha
      have hfold : frostRunFrom (s, c0) (a :: tl) now =
          frostRunFrom ((frostMachineStep s a now).1,
            c0 + if (frostMachineStep s a now).2 then 1 else 0) tl now := rfl
      rw [hfold, ih _ _ (fun x hx => hall x (List.mem_cons_of_mem a hx))]
      rcases hs : s.damageAlertShown with _ | _
      · by_cases hc : (14400 : ℤ) ≤ s.frost.accumulatedSeconds + 1
        · have hd : (frostMachineStep s a now).2 = true := hfired.mpr ⟨hs, hc⟩
          have hS1 : (frostMachineStep s a now).1.damageAlertShown = true :=
            hshown.mpr (Or.inr hc)
          simp only [hd, hS1, hacc, List.length_cons, if_true, Bool.true_eq_false,
            false_and, if_false, add_zero]
          push_cast
          simp only [true_and, eq_self_iff_true, if_true]
          split_ifs <;> omega
        · have hd : (frostMachineStep s a now).2 = false := by
            rcases h2 : (frostMachineStep s a now).2 with _ | _
            · rfl
            · exact absurd (hfired.mp h2).2 hc
          have hS1 : (frostMachineStep s a now).1.damageAlertShown = false := by
            rcases h2 : (frostMachineStep s a now).1.damageAlertShown with _ | _
            · rfl
            · rcases hshown.mp h2 with h | h
              · rw [hs] at h
                exact absurd h (by simp)
              · exact absurd h hc
          simp only [hd, hS1, hacc, List.length_cons, Bool.false_eq_true, if_false, add_zero]
          push_cast
          simp only [true_and, eq_self_iff_true, if_true]
          split_ifs <;> omega
      · have hd : (frostMachineStep s a now).2 = false := by
          rcases h2 : (frostMachineStep s a now).2 with _ | _
          · rfl
          · have := (hfired.mp h2).1
            rw [hs] at this
            exact absurd this (by simp)
        have hS1 : (frostMachineStep s a now).1.damageAlertShown = true :=
          hshown.mpr (Or.inl hs)
        simp only [hd, hS1, hacc, List.length_cons, Bool.true_eq_false, Bool.false_eq_true,
          false_and, if_false, add_zero]


lemma frostMachineStep_not_cold (s : TrackerState) (t : ℚ) (now : ℤ)
    (h1 : ¬(t ≤ CRITICAL_TEMP_THRESHOLD)) :
    frostMachineStep s t now =
      (if RESET_TEMP_THRESHOLD < t ∧ s.frost.isTracking = true then
        ({ frost := { accumulatedSeconds := 0, lastUpdateTime := now, isTracking := false }
           damageAlertShown := false }, false)
      else (s, false)) := by
  unfold frostMachineStep frostEffect frostTick
  split_ifs <;> simp_all

/-- Sample manually-held parameter set used by the reconciler witness. -/
def sampleParams : ParamSet :=
  { currentTemp := 80
    hoursBelow28 := 0
    currentInventory := 30
    marketContext :=
      { isLaNina := false
        isHurricaneActive := true
        hurricaneCenterFarFromPolk := false
        brazilRainfallIndex := 0
        currentMonth := 1 }
    rsiValue := 50
    isRsiAutoSynced := false
    rsiSyncError := none }

/-! ## Claim theorems -/

/-- Claim C1: the signal evaluator applies its overrides in a fixed
short-circuiting priority order — Brazil drought (month in {8,9,10} and
rainfall index below -1.5) wins over everything; otherwise the RSI take-profit
override (RSI above 70 and temperature above 35); otherwise the hurricane
false-alarm override; the baseline frost/inventory evaluation is reached only
when none of the three fire. -/
theorem evaluator_override_priority (nowMonth : ℕ)
    (currentTemp hoursBelow28 currentInventory : ℚ)
    (context : MarketContextParams) (rsiValue : ℚ) :
    ((context.currentMonth ∈ [8, 9, 10] ∧ context.brazilRainfallIndex < -1.5) →
      (calculateMarketSignalBrowser nowMonth currentTemp hoursBelow28 currentInventory
        (some context) rsiValue).winProbability = 0.69 ∧
      (calculateMarketSignalBrowser nowMonth currentTemp hoursBelow28 currentInventory
        (some context) rsiValue).recommendedAction = "STRONG LONG (Brazil Drought)") ∧
    (¬(context.currentMonth ∈ [8, 9, 10] ∧ context.brazilRainfallIndex < -1.5) →
      rsiValue > 70 → currentTemp > 35 →
      (calculateMarketSignalBrowser nowMonth currentTemp hoursBelow28 currentInventory
        (some context) rsiValue).winProbability = 0.72 ∧
      (calculateMarketSignalBrowser nowMonth currentTemp hoursBelow28 currentInventory
        (some context) rsiValue).recommendedAction = "TAKE PROFIT / SELL") ∧
    (¬(context.currentMonth ∈ [8, 9, 10] ∧ context.brazilRainfallIndex < -1.5) →
      ¬(rsiValue > 70 ∧ currentTemp > 35) →
      context.isHurricaneActive = true → context.hurricaneCenterFarFromPolk = true →
      (calculateMarketSignalBrowser nowMonth currentTemp hoursBelow28 currentInventory
        (some context) rsiValue).winProbability = 0.71 ∧
      (calculateMarketSignalBrowser nowMonth currentTemp hoursBelow28 currentInventory
        (some context) rsiValue).recommendedAction = "SELL/SHORT (False Alarm)") ∧
    (¬(context.currentMonth ∈ [8, 9, 10] ∧ context.brazilRainfallIndex < -1.5) →
      ¬(rsiValue > 70 ∧ currentTemp > 35) →
      ¬(context.isHurricaneActive = true ∧ context.hurricaneCenterFarFromPolk = true) →
      calculateMarketSignalBrowser nowMonth currentTemp hoursBelow28 currentInventory
        (some context) rsiValue =
        baselineSignal currentTemp hoursBelow28 currentInventory context rsiValue) := by
  refine ⟨fun hd => ?_, fun hnd hr ht => ?_, fun hnd hnr hh hf => ?_, fun hnd hnr hnh => ?_⟩
  · have hd' : context.currentMonth ∈ BRAZIL_DROUGHT_MONTHS ∧
        context.brazilRainfallIndex < BRAZIL_DROUGHT_THRESHOLD := hd
    simp only [calculateMarketSignalBrowser, Option.getD_some]
    rw [if_pos hd']
    exact ⟨rfl, rfl⟩
  · have hnd' : ¬(context.currentMonth ∈ BRAZIL_DROUGHT_MONTHS ∧
        context.brazilRainfallIndex < BRAZIL_DROUGHT_THRESHOLD) := hnd
    have hr' : rsiValue > RSI_OVERBOUGHT_THRESHOLD ∧
        currentTemp > TEMP_RECOVERY_THRESHOLD := ⟨hr, ht⟩
    simp only [calculateMarketSignalBrowser, Option.getD_some]
    rw [if_neg hnd', if_pos hr']
    exact ⟨rfl, rfl⟩
  · have hnd' : ¬(context.currentMonth ∈ BRAZIL_DROUGHT_MONTHS ∧
        context.brazilRainfallIndex < BRAZIL_DROUGHT_THRESHOLD) := hnd
    have hnr' : ¬(rsiValue > RSI_OVERBOUGHT_THRESHOLD ∧
        currentTemp > TEMP_RECOVERY_THRESHOLD) := hnr
    simp only [calculateMarketSignalBrowser, Option.getD_some]
    rw [if_neg hnd', if_neg hnr', if_pos ⟨hh, hf⟩]
    exact ⟨rfl, rfl⟩
  · exact calc_eq_baseline nowMonth currentTemp hoursBelow28 currentInventory context rsiValue
      hnd hnr hnh

/-- Witness for C1: in September with rainfall index -2.0 the drought override
fires regardless of extreme temperature, inventory, RSI and hurricane flags. -/
theorem evaluator_override_priority_witness :
    (calculateMarketSignalBrowser 1 80 0 60 (some droughtStressContext) 99).winProbability =
      0.69 ∧
    (calculateMarketSignalBrowser 1 80 0 60 (some droughtStressContext) 99).recommendedAction =
      "STRONG LONG (Brazil Drought)" :=
  (evaluator_override_priority 1 80 0 60 droughtStressContext 99).1
    (by norm_num [droughtStressContext])

/-- Claim C2: with no override fired, the returned win probability is
round-to-2-decimals of min(baseRate × inventoryMultiplier × (1.4 if La Niña),
0.95), with the base rate and multiplier bands as specified; in particular
temp 20, 5 frost hours, inventory 30 and no La Niña give the capped 0.95 with
action "Double Position". -/
theorem baseline_probability_formula (nowMonth : ℕ)
    (currentTemp hoursBelow28 currentInventory : ℚ)
    (context : MarketContextParams) (rsiValue : ℚ)
    (hnd : ¬(context.currentMonth ∈ [8, 9, 10] ∧ context.brazilRainfallIndex < -1.5))
    (hnr : ¬(rsiValue > 70 ∧ currentTemp > 35))
    (hnh : ¬(context.isHurricaneActive = true ∧ context.hurricaneCenterFarFromPolk = true)) :
    (calculateMarketSignalBrowser nowMonth currentTemp hoursBelow28 currentInventory
      (some context) rsiValue).winProbability =
      round2 (min (specBaseRate currentTemp hoursBelow28 *
        specInventoryMultiplier currentInventory *
        (if context.isLaNina then 1.4 else 1)) 0.95) ∧
    (calculateMarketSignalBrowser 1 20 5 30 (some neutralContext) 50).winProbability = 0.95 ∧
    (calculateMarketSignalBrowser 1 20 5 30 (some neutralContext) 50).recommendedAction =
      "Double Position" := by
  refine ⟨?_,
    by norm_num [calculateMarketSignalBrowser, baselineSignal, Option.getD_some, neutralContext,
      MARKET_RULES, BRAZIL_DROUGHT_MONTHS, BRAZIL_DROUGHT_THRESHOLD, RSI_OVERBOUGHT_THRESHOLD,
      TEMP_RECOVERY_THRESHOLD, MAX_WIN_PROBABILITY, LA_NINA_MULTIPLIER, round2, jsRound, min_def],
    by norm_num [calculateMarketSignalBrowser, baselineSignal, Option.getD_some, neutralContext,
      MARKET_RULES, BRAZIL_DROUGHT_MONTHS, BRAZIL_DROUGHT_THRESHOLD, RSI_OVERBOUGHT_THRESHOLD,
      TEMP_RECOVERY_THRESHOLD]⟩
  rw [calc_eq_baseline nowMonth currentTemp hoursBelow28 currentInventory context rsiValue
    hnd hnr hnh, baseline_winProb_eq]
  rfl

/-- Witness for C2 at the concrete no-override input temp 20, hours 5,
inventory 30, neutral context, RSI 50. -/
theorem baseline_probability_formula_witness :
    (calculateMarketSignalBrowser 1 20 5 30 (some neutralContext) 50).winProbability =
      round2 (min (specBaseRate 20 5 * specInventoryMultiplier 30 *
        (if neutralContext.isLaNina then 1.4 else 1)) 0.95) :=
  (baseline_probability_formula 1 20 5 30 neutralContext 50
    (by norm_num [neutralContext]) (by norm_num) (by norm_num [neutralContext])).1

/-- Claim C3: in the baseline branch the recommended action is a function of
inventory and frost state only, by first-match over the specified rule order;
temp 45, inventory 50, neutral flags and RSI 50 give probability 0.5 and action
"Monitor". -/
theorem baseline_action_rule (nowMonth : ℕ)
    (currentTemp hoursBelow28 currentInventory : ℚ)
    (context : MarketContextParams) (rsiValue : ℚ)
    (hnd : ¬(context.currentMonth ∈ [8, 9, 10] ∧ context.brazilRainfallIndex < -1.5))
    (hnr : ¬(rsiValue > 70 ∧ currentTemp > 35))
    (hnh : ¬(context.isHurricaneActive = true ∧ context.hurricaneCenterFarFromPolk = true)) :
    (calculateMarketSignalBrowser nowMonth currentTemp hoursBelow28 currentInventory
      (some context) rsiValue).recommendedAction =
      specBaselineAction currentTemp hoursBelow28 currentInventory ∧
    (calculateMarketSignalBrowser 1 45 0 50 (some neutralContext) 50).winProbability = 0.5 ∧
    (calculateMarketSignalBrowser 1 45 0 50 (some neutralContext) 50).recommendedAction =
      "Monitor" := by
  refine ⟨?_,
    by norm_num [calculateMarketSignalBrowser, baselineSignal, Option.getD_some, neutralContext,
      MARKET_RULES, BRAZIL_DROUGHT_MONTHS, BRAZIL_DROUGHT_THRESHOLD, RSI_OVERBOUGHT_THRESHOLD,
      TEMP_RECOVERY_THRESHOLD, MAX_WIN_PROBABILITY, LA_NINA_MULTIPLIER, round2, jsRound, min_def],
    by norm_num [calculateMarketSignalBrowser, baselineSignal, Option.getD_some, neutralContext,
      MARKET_RULES, BRAZIL_DROUGHT_MONTHS, BRAZIL_DROUGHT_THRESHOLD, RSI_OVERBOUGHT_THRESHOLD,
      TEMP_RECOVERY_THRESHOLD]⟩
  rw [calc_eq_baseline nowMonth currentTemp hoursBelow28 currentInventory context rsiValue
    hnd hnr hnh, baseline_action_eq]

/-- Witness for C3 at the concrete baseline input temp 45, inventory 50,
neutral context, RSI 50. -/
theorem baseline_action_rule_witness :
    (calculateMarketSignalBrowser 1 45 0 50 (some neutralContext) 50).recommendedAction =
      specBaselineAction 45 0 50 :=
  (baseline_action_rule 1 45 0 50 neutralContext 50
    (by norm_num [neutralContext]) (by norm_num) (by norm_num [neutralContext])).1

/-- Claim C9: on every branch, overrides included, the returned win probability
lies in the interval [0, 0.95]. -/
theorem win_probability_capped (nowMonth : ℕ) (currentTemp hoursBelow28 currentInventory : ℚ)
    (marketContext : Option MarketContextParams) (rsiValue : ℚ) :
    0 ≤ (calculateMarketSignalBrowser nowMonth currentTemp hoursBelow28 currentInventory
        marketContext rsiValue).winProbability ∧
      (calculateMarketSignalBrowser nowMonth currentTemp hoursBelow28 currentInventory
        marketContext rsiValue).winProbability ≤ 0.95 := by
  cases marketContext with
  | none =>
      exact calc_bounds_aux nowMonth currentTemp hoursBelow28 currentInventory
        (defaultMarketContext nowMonth) rsiValue
  | some c => exact calc_bounds_aux nowMonth currentTemp hoursBelow28 currentInventory c rsiValue

/-- Claim C10: with the market context omitted the evaluator depends on the
wall-clock month (month 9 and month 1 give different results on identical
explicit arguments), the omitted-context call equals the call with the default
context for that month, and with a supplied context the result is independent
of the wall clock — a pure function of the five arguments. -/
theorem omitted_context_wall_clock :
    calculateMarketSignalBrowser 9 45 0 50 none 50 ≠
      calculateMarketSignalBrowser 1 45 0 50 none 50 ∧
    (∀ (m : ℕ) (t h i r : ℚ),
      calculateMarketSignalBrowser m t h i none r =
        calculateMarketSignalBrowser m t h i (some (defaultMarketContext m)) r) ∧
    (∀ (m1 m2 : ℕ) (t h i : ℚ) (c : MarketContextParams) (r : ℚ),
      calculateMarketSignalBrowser m1 t h i (some c) r =
        calculateMarketSignalBrowser m2 t h i (some c) r) := by
  refine ⟨fun heq => ?_, fun m t h i r => rfl, fun m1 m2 t h i c r => rfl⟩
  have h9 : (calculateMarketSignalBrowser 9 45 0 50 none 50).insight.brazilDroughtEffect =
      some (BrazilMsg.noDroughtSignal 0) := by
    norm_num [calculateMarketSignalBrowser, baselineSignal, Option.getD_none,
      defaultMarketContext, MARKET_RULES, BRAZIL_DROUGHT_MONTHS, BRAZIL_DROUGHT_THRESHOLD,
      RSI_OVERBOUGHT_THRESHOLD, TEMP_RECOVERY_THRESHOLD]
  have h1 : (calculateMarketSignalBrowser 1 45 0 50 none 50).insight.brazilDroughtEffect =
      none := by
    norm_num [calculateMarketSignalBrowser, baselineSignal, Option.getD_none,
      defaultMarketContext, MARKET_RULES, BRAZIL_DROUGHT_MONTHS, BRAZIL_DROUGHT_THRESHOLD,
      RSI_OVERBOUGHT_THRESHOLD, TEMP_RECOVERY_THRESHOLD]
  rw [heq, h1] at h9
  exact Option.noConfusion h9

/-- Claim C5: a live-data sync overwrites only the temperature (and the RSI
value when the fetch succeeded); inventory, frost hours and the market-context
toggles are untouched, and a failed RSI fetch keeps the previous RSI value and
surfaces the error annotation. -/
theorem sync_preserves_manual_controls (params : ParamSet) (fetchedTemp : ℚ)
    (rsiResult : RSIFetchResult) :
    (handleSyncLiveData params fetchedTemp rsiResult).currentTemp = fetchedTemp ∧
    (handleSyncLiveData params fetchedTemp rsiResult).currentInventory =
      params.currentInventory ∧
    (handleSyncLiveData params fetchedTemp rsiResult).marketContext = params.marketContext ∧
    (handleSyncLiveData params fetchedTemp rsiResult).hoursBelow28 = params.hoursBelow28 ∧
    (rsiResult.error = none →
      (handleSyncLiveData params fetchedTemp rsiResult).rsiValue = rsiResult.value ∧
      (handleSyncLiveData params fetchedTemp rsiResult).rsiSyncError = none) ∧
    (∀ e, rsiResult.error = some e →
      (handleSyncLiveData params fetchedTemp rsiResult).rsiValue = params.rsiValue ∧
      (handleSyncLiveData params fetchedTemp rsiResult).rsiSyncError = some e) := by
  rcases hr : rsiResult.error with _ | e <;> simp [handleSyncLiveData, hr]

/-- Witness for C5: a successful sync updates temperature and RSI while
leaving inventory 30 and the hurricane toggle untouched. -/
theorem sync_preserves_manual_controls_witness :
    (handleSyncLiveData sampleParams 45 { value := 62, error := none }).currentInventory = 30 ∧
    (handleSyncLiveData sampleParams 45 { value := 62, error := none }).marketContext =
      sampleParams.marketContext ∧
    (handleSyncLiveData sampleParams 45 { value := 62, error := none }).rsiValue = 62 :=
  ⟨(sync_preserves_manual_controls sampleParams 45 { value := 62, error := none }).2.1,
   (sync_preserves_manual_controls sampleParams 45 { value := 62, error := none }).2.2.1,
   ((sync_preserves_manual_controls sampleParams 45 { value := 62, error := none }).2.2.2.2.1
     rfl).1⟩

/-- Claim C4: with at least period+1 prices the RSI is an integer in [0,100];
all-negative deltas give 0; all-positive deltas (smoothed average loss exactly
zero) give 100 rather than an undefined value; with fewer than period+1 prices
the calculation fails with the insufficient-data error. -/
theorem rsi_range_and_guard (closingPrices : List ℚ) (period : ℕ) (hp : 1 ≤ period) :
    (period + 1 ≤ closingPrices.length →
      ∃ r : ℤ, calculateRSI closingPrices period = Except.ok r ∧ 0 ≤ r ∧ r ≤ 100) ∧
    (period + 1 ≤ closingPrices.length →
      (∀ c ∈ priceChanges closingPrices, c < 0) →
      calculateRSI closingPrices period = Except.ok 0) ∧
    (period + 1 ≤ closingPrices.length →
      (∀ c ∈ priceChanges closingPrices, 0 < c) →
      calculateRSI closingPrices period = Except.ok 100) ∧
    (closingPrices.length < period + 1 →
      calculateRSI closingPrices period =
        Except.error ("Need at least " ++ toString (period + 1) ++
          " data points for RSI calculation")) := by
  refine ⟨fun hlen => ?_, fun hlen hneg => ?_, fun hlen hpos => ?_, fun hlt => ?_⟩
  · refine ⟨rsiCore closingPrices period, ?_, (rsiCore_range _ _).1, (rsiCore_range _ _).2⟩
    unfold calculateRSI
    rw [if_neg (by omega)]
  · unfold calculateRSI
    rw [if_neg (by omega)]
    obtain ⟨h1, h2⟩ := rsiAverages_all_losses closingPrices period hp hlen hneg
    unfold rsiCore
    rw [if_neg (ne_of_gt h2), h1]
    norm_num [jsRound]
  · unfold calculateRSI
    rw [if_neg (by omega)]
    have h2 := rsiAverages_all_gains closingPrices period hpos
    unfold rsiCore
    rw [if_pos h2]
  · unfold calculateRSI
    rw [if_pos hlt]

/-- Witness for C4: a strictly increasing 16-point price series with period 14
yields RSI exactly 100. -/
theorem rsi_range_and_guard_witness :
    calculateRSI [1, 2, 3, 4, 5, 6, 7, 8, 9, 10, 11, 12, 13, 14, 15, 16] 14 =
      Except.ok 100 :=
  (rsi_range_and_guard [1, 2, 3, 4, 5, 6, 7, 8, 9, 10, 11, 12, 13, 14, 15, 16] 14
    (by norm_num)).2.2.1 (by norm_num) (by norm_num [priceChanges])

/-- Counterexample for C6: a persisted state with `isTracking = true` but
`lastUpdateTime = 0` is returned unchanged by `loadFrostData` (the JS code
requires a truthy `lastUpdateTime`), so its accumulatedSeconds is not
increased by floor((now - lastUpdateTime) / 1000) as the claim states. -/
theorem load_frost_zero_timestamp_counterexample :
    ¬((loadFrostData (some ⟨0, 0, true⟩) 600000).accumulatedSeconds =
      (0 : ℤ) + ((600000 : ℤ) - 0).fdiv 1000) := by decide

/-- Claim C6 (amended): loading a persisted state with `isTracking = true` and
a nonzero `lastUpdateTime` adds floor((now - lastUpdateTime) / 1000) to
`accumulatedSeconds` and sets `lastUpdateTime` to now; with `isTracking =
false`, or with a zero (falsy) `lastUpdateTime`, the stored state is returned
unchanged. -/
theorem load_frost_restores_offline_time (stored : FrostTrackerData) (now : ℤ) :
    (stored.isTracking = true → stored.lastUpdateTime ≠ 0 →
      loadFrostData (some stored) now =
        { accumulatedSeconds :=
            stored.accumulatedSeconds + (now - stored.lastUpdateTime).fdiv 1000
          lastUpdateTime := now
          isTracking := stored.isTracking }) ∧
    (stored.isTracking = false → loadFrostData (some stored) now = stored) ∧
    (stored.lastUpdateTime = 0 → loadFrostData (some stored) now = stored) := by
  refine ⟨fun ht hz => ?_, fun hf => ?_, fun h0 => ?_⟩
  · simp only [loadFrostData]
    rw [if_pos ⟨ht, hz⟩]
  · simp only [loadFrostData]
    rw [if_neg]
    rintro ⟨ht, -⟩
    rw [hf] at ht
    exact absurd ht (by simp)
  · simp only [loadFrostData]
    rw [if_neg]
    rintro ⟨-, hz⟩
    exact hz h0

/-- Witness for C6 (amended): a tracking state persisted 600 seconds in the
past immediately shows accumulatedSeconds 600 larger on load. -/
theorem load_frost_restores_offline_time_witness :
    loadFrostData (some ⟨100, 1000, true⟩) 601000 = ⟨700, 601000, true⟩ := by
  rw [(load_frost_restores_offline_time ⟨100, 1000, true⟩ 601000).1 rfl (by decide)]
  decide

/-- Claim C7: the alert count over any all-cold run is exactly the one-shot
closed form (hence at most one per tracking episode, firing exactly when the
four-hour mark is reached); once shown, the flag is cleared only by the
above-32°F reset or the manual reset, and no further alert fires; holding 20°F
from Idle fires exactly once, at second 14400 and not before, and never again
afterwards. -/
theorem frost_alert_one_shot :
    (∀ (s : TrackerState) (temps : List ℚ) (now : ℤ),
      (∀ x ∈ temps, x ≤ 28) →
      (frostRun s temps now).2 =
        (if s.damageAlertShown = false ∧ 1 ≤ temps.length ∧
            14400 ≤ s.frost.accumulatedSeconds + (temps.length : ℤ) then 1 else 0) ∧
      (frostRun s temps now).2 ≤ 1) ∧
    (∀ (s : TrackerState) (t : ℚ) (now : ℤ), s.damageAlertShown = true →
      ((frostMachineStep s t now).1.damageAlertShown = false ↔
        (32 < t ∧ s.frost.isTracking = true)) ∧
      (frostMachineStep s t now).2 = false) ∧
    (∀ now : ℤ,
      (handleResetFrostTracker now).damageAlertShown = false ∧
      (handleResetFrostTracker now).frost.accumulatedSeconds = 0 ∧
      (handleResetFrostTracker now).frost.isTracking = false) ∧
    ((frostRun (initialTracker 0) (List.replicate 14399 20) 0).2 = 0 ∧
      (frostRun (initialTracker 0) (List.replicate 14400 20) 0).2 = 1 ∧
      ∀ m : ℕ, (frostRun (initialTracker 0) (List.replicate (14400 + m) 20) 0).2 = 1) := by
  have hrep : ∀ (k : ℕ) (x : ℚ), x ∈ List.replicate k (20 : ℚ) →
      x ≤ CRITICAL_TEMP_THRESHOLD := by
    intro k x hx
    rw [List.eq_of_mem_replicate hx, CRITICAL_TEMP_THRESHOLD]
    norm_num
  refine ⟨fun s temps now hcold => ?_, fun s t now hs => ?_,
    fun now => ⟨rfl, rfl, rfl⟩, ?_, ?_, fun m => ?_⟩
  · have h := frostRunFrom_cold_count now temps s 0 hcold
    constructor
    · simp only [frostRun]
      rw [h]
      exact Nat.zero_add _
    · simp only [frostRun]
      rw [h]
      split_ifs <;> omega
  · by_cases h1 : t ≤ (28 : ℚ)
    · obtain ⟨hacc, htrk, hlast, hshown, hfired⟩ := frostMachineStep_cold s t now h1
      constructor
      · constructor
        · intro hfalse
          have hT : (frostMachineStep s t now).1.damageAlertShown = true :=
            hshown.mpr (Or.inl hs)
          rw [hT] at hfalse
          exact absurd hfalse (by simp)
        · rintro ⟨h32, -⟩
          exfalso
          linarith
      · rcases h2 : (frostMachineStep s t now).2 with _ | _
        · rfl
        · have hF := (hfired.mp h2).1
          rw [hs] at hF
          exact absurd hF (by simp)
    · rw [frostMachineStep_not_cold s t now h1]
      by_cases hb2 : RESET_TEMP_THRESHOLD < t ∧ s.frost.isTracking = true
      · rw [if_pos hb2]
        exact ⟨⟨fun _ => ⟨hb2.1, hb2.2⟩, fun _ => rfl⟩, rfl⟩
      · rw [if_neg hb2]
        refine ⟨⟨fun hfalse => ?_, fun hrhs => absurd ⟨hrhs.1, hrhs.2⟩ hb2⟩, rfl⟩
        have hfalse0 : s.damageAlertShown = false := hfalse
        rw [hs] at hfalse0
        exact absurd hfalse0 (by simp)
  · have h := frostRunFrom_cold_count 0 (List.replicate 14399 20) (initialTracker 0) 0
      (hrep 14399)
    simp only [frostRun]
    rw [h]
    norm_num [initialTracker, loadFrostData, List.length_replicate]
  · have h := frostRunFrom_cold_count 0 (List.replicate 14400 20) (initialTracker 0) 0
      (hrep 14400)
    simp only [frostRun]
    rw [h]
    norm_num [initialTracker, loadFrostData, List.length_replicate]
  · have h := frostRunFrom_cold_count 0 (List.replicate (14400 + m) 20) (initialTracker 0) 0
      (hrep (14400 + m))
    simp only [frostRun]
    rw [h]
    simp only [initialTracker, loadFrostData, List.length_replicate]
    rw [if_pos ⟨trivial, by omega, by push_cast; omega⟩]

/-- Witness for C7: the 14400-second cold run from Idle raises at most one
alert. -/
theorem frost_alert_one_shot_witness :
    (frostRun (initialTracker 0) (List.replicate 14400 20) 0).2 ≤ 1 :=
  (frost_alert_one_shot.1 (initialTracker 0) (List.replicate 14400 20) 0
    (fun x hx => by rw [List.eq_of_mem_replicate hx]; norm_num)).2

/-- Claim C8: hysteresis of the tracker step — from Idle it starts tracking
exactly when the temperature is at most 28°F (stamping lastUpdateTime); a
second is accumulated exactly when the temperature is at most 28°F (the
machine is then tracking); while tracking, the state is zeroed with tracking
cleared exactly when the temperature exceeds 32°F; and for temperatures in
(28, 32] the step changes nothing. -/
theorem frost_tracker_hysteresis (s : TrackerState) (t : ℚ) (now : ℤ) :
    (s.frost.isTracking = false →
      (((frostMachineStep s t now).1.frost.isTracking = true) ↔ t ≤ 28) ∧
      (t ≤ 28 → (frostMachineStep s t now).1.frost.lastUpdateTime = now)) ∧
    (0 ≤ s.frost.accumulatedSeconds →
      (((frostMachineStep s t now).1.frost.accumulatedSeconds =
        s.frost.accumulatedSeconds + 1) ↔
        (t ≤ 28 ∧ (frostMachineStep s t now).1.frost.isTracking = true))) ∧
    (s.frost.isTracking = true → 0 ≤ s.frost.accumulatedSeconds →
      (((frostMachineStep s t now).1.frost.accumulatedSeconds = 0 ∧
        (frostMachineStep s t now).1.frost.isTracking = false) ↔ 32 < t)) ∧
    (28 < t → t ≤ 32 → frostMachineStep s t now = (s, false)) := by
  refine ⟨fun hb => ?_, fun h0 => ?_, fun hb h0 => ?_, fun h28 h32 => ?_⟩
  · by_cases h1 : t ≤ (28 : ℚ)
    · obtain ⟨hacc, htrk, hlast, hshown, hfired⟩ := frostMachineStep_cold s t now h1
      exact ⟨⟨fun _ => h1, fun _ => htrk⟩, fun _ => hlast⟩
    · rw [frostMachineStep_not_cold s t now h1]
      rw [if_neg (by rintro ⟨-, htr⟩; rw [hb] at htr; exact absurd htr (by simp))]
      refine ⟨⟨fun hfalse => ?_, fun ht => absurd ht h1⟩, fun ht => absurd ht h1⟩
      have hfalse0 : s.frost.isTracking = true := hfalse
      rw [hb] at hfalse0
      exact absurd hfalse0 (by simp)
  · by_cases h1 : t ≤ (28 : ℚ)
    · obtain ⟨hacc, htrk, hlast, hshown, hfired⟩ := frostMachineStep_cold s t now h1
      rw [hacc, htrk]
      simp [h1]
    · rw [frostMachineStep_not_cold s t now h1]
      by_cases hb2 : RESET_TEMP_THRESHOLD < t ∧ s.frost.isTracking = true
      · rw [if_pos hb2]
        constructor
        · intro hz
          have hz0 : (0 : ℤ) = s.frost.accumulatedSeconds + 1 := hz
          exfalso
          omega
        · rintro ⟨ht, -⟩
          exact absurd ht h1
      · rw [if_neg hb2]
        constructor
        · intro hz
          have hz0 : s.frost.accumulatedSeconds = s.frost.accumulatedSeconds + 1 := hz
          exfalso
          omega
        · rintro ⟨ht, -⟩
          exact absurd ht h1
  · by_cases h1 : t ≤ (28 : ℚ)
    · obtain ⟨hacc, htrk, hlast, hshown, hfired⟩ := frostMachineStep_cold s t now h1
      constructor
      · rintro ⟨hz, -⟩
        rw [hacc] at hz
        exfalso
        omega
      · intro h32
        exfalso
        linarith
    · rw [frostMachineStep_not_cold s t now h1]
      by_cases hb2 : RESET_TEMP_THRESHOLD < t ∧ s.frost.isTracking = true
      · rw [if_pos hb2]
        exact ⟨fun _ => hb2.1, fun _ => ⟨rfl, rfl⟩⟩
      · rw [if_neg hb2]
        constructor
        · rintro ⟨-, htr⟩
          have htr0 : s.frost.isTracking = false := htr
          rw [hb] at htr0
          exact absurd htr0 (by simp)
        · intro h32
          exact absurd ⟨h32, hb⟩ hb2
  · rw [frostMachineStep_not_cold s t now
      (by rw [CRITICAL_TEMP_THRESHOLD]; exact not_le.mpr h28)]
    rw [if_neg]
    rintro ⟨hgt, -⟩
    rw [RESET_TEMP_THRESHOLD] at hgt
    linarith

/-- Witness for C8: at 30°F (inside the hysteresis band) a tracking state is
left entirely unchanged. -/
theorem frost_tracker_hysteresis_witness :
    frostMachineStep ⟨⟨10, 5, true⟩, false⟩ 30 7 = (⟨⟨10, 5, true⟩, false⟩, false) :=
  (frost_tracker_hysteresis ⟨⟨10, 5, true⟩, false⟩ 30 7).2.2.2 (by norm_num) (by norm_num)

end OrangeTrading
